import Mathlib

/-!
Verification of the sales-checklist call-processing pipeline.

The definitions below are a shallow embedding of the pipeline code:
session state (`Session`) collects the per-session rows of the relational
store (audio file, transcript, checklist responses, scoring result, score
history), and each endpoint or background task becomes a function from
session state (plus explicit inputs standing for external services) to a
new session state and a response.  Machine floats in the source hold only
exact decimal values produced by integer division, so scores are embedded
as `Rat`.
-/

/-- Session processing status (`app/models/session.py`, `SessionStatus`;
the `pending_review` member is added by migration
`20251209_2019_ef9e7fab47d0` and assigned as a raw string by the
endpoints). -/
inductive SessionStatus where
  | draft
  | uploading
  | processing
  | analyzing
  | scoring
  | pending_review
  | completed
  | failed
deriving DecidableEq

/-- Risk assessment band (`app/models/scoring.py`, `RiskBand`). -/
inductive RiskBand where
  | green
  | yellow
  | red
deriving DecidableEq

/-- HTTP-level error outcomes raised by the endpoints. -/
inductive ApiError where
  | notFound
  | badRequest
  | conflict
  | unsupportedMediaType
  | payloadTooLarge
  | internalError
deriving DecidableEq

/-- One checklist response row (`session_responses` table after migration
`20251202_2250_6d8044164f8a`): AI verdict, optional human override,
change tracking and the per-item score.  The checklist item's title is
flattened in (the endpoints read it through the `item` relationship). -/
structure SessionResponse where
  itemId : Nat
  itemTitle : String
  aiAnswer : Bool
  aiReasoning : String
  userAnswer : Option Bool
  wasChanged : Bool
  changedAt : Option Nat
  score : Nat
deriving DecidableEq

/-- Current aggregate score row (`app/models/scoring.py`, `ScoringResult`);
one per session, replaced on recalculation. -/
structure ScoringResult where
  totalScore : Rat
  riskBand : RiskBand
  topStrengths : List String
  topGaps : List String
  itemsValidated : Nat
  itemsTotal : Nat
deriving DecidableEq

/-- Append-only score-history row (`app/models/scoring.py`, `ScoreHistory`). -/
structure ScoreHistory where
  totalScore : Rat
  riskBand : RiskBand
  itemsValidated : Nat
  itemsTotal : Nat
  calculatedAt : Nat
  scoreChange : Option Rat
  triggerEvent : String
deriving DecidableEq

/-- Transcript row (`app/models/session.py`, `Transcript`). -/
structure Transcript where
  text : String
  language : String
  wordsCount : Nat
deriving DecidableEq

/-- Audio file row (`app/models/session.py`, `AudioFile`). -/
structure AudioFile where
  filename : String
  filePath : String
  storageType : String
  fileSize : Nat
  mimeType : String
deriving DecidableEq

/-- The per-session slice of the persistence store that the pipeline
reads and writes. -/
structure Session where
  status : SessionStatus
  audioFile : Option AudioFile
  transcript : Option Transcript
  responses : List SessionResponse
  scoringResult : Option ScoringResult
  scoreHistory : List ScoreHistory
  submittedAt : Option Nat
deriving DecidableEq

/-- Effective verdict of one response: the human override when present,
else the AI verdict (`final_answer = user_answer if user_answer is not
None else ai_answer` in `scoring.py` and `sessions.py`). -/
def finalAnswer (r : SessionResponse) : Bool :=
  r.userAnswer.getD r.aiAnswer

/-- Number of responses whose effective verdict is true. -/
def countValidated (rs : List SessionResponse) : Nat :=
  (rs.filter (fun r => finalAnswer r)).length

/-- Titles of the validated items, in stored (item-id) order. -/
def validatedTitles (rs : List SessionResponse) : List String :=
  (rs.filter (fun r => finalAnswer r)).map (fun r => r.itemTitle)

/-- Titles of the unvalidated items, in stored (item-id) order. -/
def unvalidatedTitles (rs : List SessionResponse) : List String :=
  (rs.filter (fun r => !finalAnswer r)).map (fun r => r.itemTitle)

/-- Percentage score from `calculate_session_score`:
`total_score / max_possible_score * 100` with 10 points per validated
item, or 0 when there are no items. -/
def percentageScore (rs : List SessionResponse) : Rat :=
  let total : Nat := 10 * countValidated rs
  let maxPossible : Nat := rs.length * 10
  if 0 < maxPossible then (total : Rat) / (maxPossible : Rat) * 100 else 0

/-- Risk band from the percentage score (`scoring.py` lines 118-127). -/
def riskBandOf (p : Rat) : RiskBand :=
  if p ≥ 80 then RiskBand.green
  else if p ≥ 60 then RiskBand.yellow
  else RiskBand.red

/-- The replacement `ScoringResult` built by `calculate_session_score`.
All validated items share score 10 and all unvalidated share score 0, so
Python's stable `sorted(..., key=score)` keeps stored order and the top-3
slices are plain prefixes. -/
def calcSnapshot (rs : List SessionResponse) : ScoringResult :=
  { totalScore := percentageScore rs
    riskBand := riskBandOf (percentageScore rs)
    topStrengths := (validatedTitles rs).take 3
    topGaps := (unvalidatedTitles rs).take 3
    itemsValidated := countValidated rs
    itemsTotal := rs.length }

/-- The `ScoreHistory` row appended by `calculate_session_score`:
`score_change` is the new percentage minus the previous snapshot's score
(None when no previous snapshot exists), and the trigger event marks
whether a previous snapshot existed. -/
def calcHistoryEntry (rs : List SessionResponse) (prev : Option ScoringResult)
    (now : Nat) : ScoreHistory :=
  { totalScore := percentageScore rs
    riskBand := riskBandOf (percentageScore rs)
    itemsValidated := countValidated rs
    itemsTotal := rs.length
    calculatedAt := now
    scoreChange := prev.map (fun p => percentageScore rs - p.totalScore)
    triggerEvent := if prev.isSome then "manual_calculation" else "initial_calculation" }

/-- Response payload of `POST /scoring/calculate` (the fields the claims
are about). -/
structure CalcResponse where
  totalScore : Rat
  riskBand : RiskBand
  validatedCount : Nat
  totalItems : Nat
deriving DecidableEq

/-- `calculate_session_score` (`app/api/v1/endpoints/scoring.py` lines
21-205): 400 when the session has no responses; otherwise replaces the
scoring result, always appends one history row, and finally sets the
session status to `scoring`. -/
def calculate_session_score (st : Session) (now : Nat) :
    Except ApiError (Session × CalcResponse) :=
  if st.responses.isEmpty then
    Except.error ApiError.badRequest
  else
    Except.ok
      ({ st with
          scoringResult := some (calcSnapshot st.responses)
          scoreHistory := st.scoreHistory ++ [calcHistoryEntry st.responses st.scoringResult now]
          status := SessionStatus.scoring },
       { totalScore := percentageScore st.responses
         riskBand := riskBandOf (percentageScore st.responses)
         validatedCount := countValidated st.responses
         totalItems := st.responses.length })

/-- `update_checklist_item` (`app/api/v1/endpoints/sessions.py` lines
572-639): sets the human override on one response, recomputes the
`was_changed` flag, `changed_at` timestamp and the per-item score.  The
request schema requires a boolean `user_answer`. -/
def update_checklist_item (st : Session) (itemId : Nat) (newAnswer : Bool)
    (now : Nat) : Except ApiError (Session × SessionResponse) :=
  match st.responses.find? (fun r => r.itemId == itemId) with
  | none => Except.error ApiError.notFound
  | some r =>
      let wasChanged := newAnswer != r.aiAnswer
      let updated : SessionResponse :=
        { r with
            userAnswer := some newAnswer
            wasChanged := wasChanged
            changedAt := if wasChanged then some now else none
            score := if newAnswer then 10 else 0 }
      let newResponses := st.responses.map (fun x =>
        if x.itemId == itemId then
          { x with
              userAnswer := some newAnswer
              wasChanged := newAnswer != x.aiAnswer
              changedAt := if newAnswer != x.aiAnswer then some now else none
              score := if newAnswer then 10 else 0 }
        else x)
      Except.ok ({ st with responses := newResponses }, updated)

/-- Result of `submit_checklist`: the new session state, the final score
breakdown, and whether the coaching background task was scheduled. -/
structure SubmitOutcome where
  state : Session
  totalScore : Nat
  itemsYes : Nat
  itemsNo : Nat
  coachingScheduled : Bool
deriving DecidableEq

/-- `submit_checklist` (`app/api/v1/endpoints/sessions.py` lines
642-768): 404 when the session has no responses; otherwise recomputes
score and band over the effective verdicts, updates (or creates) the
`ScoringResult` row, marks the session `completed` with a submission
timestamp, and schedules coaching generation as a background task.  No
`ScoreHistory` row is written on this path. -/
def submit_checklist (st : Session) (now : Nat) : Except ApiError SubmitOutcome :=
  if st.responses.isEmpty then
    Except.error ApiError.notFound
  else
    let itemsYes := countValidated st.responses
    let itemsNo := st.responses.length - itemsYes
    let totalScore := 10 * itemsYes
    let band :=
      if 80 ≤ totalScore then RiskBand.green
      else if 60 ≤ totalScore then RiskBand.yellow
      else RiskBand.red
    let newResult : ScoringResult :=
      match st.scoringResult with
      | some r =>
          { r with
              totalScore := (totalScore : Rat)
              riskBand := band
              itemsValidated := itemsYes
              itemsTotal := st.responses.length }
      | none =>
          { totalScore := (totalScore : Rat)
            riskBand := band
            topStrengths := []
            topGaps := []
            itemsValidated := itemsYes
            itemsTotal := st.responses.length }
    Except.ok
      { state :=
          { st with
              scoringResult := some newResult
              status := SessionStatus.completed
              submittedAt := some now }
        totalScore := totalScore
        itemsYes := itemsYes
        itemsNo := itemsNo
        coachingScheduled := true }

/-- One parsed entry of the LLM completion's `items` array
(`checklist_analyzer.py`, expected output format). -/
structure LLMItemResult where
  answer : Bool
  reasoning : String
deriving DecidableEq

/-- A static checklist item as seen by the analyzer (id and title). -/
structure ChecklistItemRef where
  id : Nat
  title : String
deriving DecidableEq

/-- The per-item assignment loop of `ChecklistAnalyzer.analyze_transcript`
(lines 249-258): entry `idx` of the parsed response is read for checklist
item `idx`; an out-of-range read raises, which the surrounding handler
re-raises as a runtime error for the whole analysis. -/
def assignItems : List ChecklistItemRef → List LLMItemResult →
    Except String (List (ChecklistItemRef × LLMItemResult))
  | [], _ => Except.ok []
  | _ :: _, [] => Except.error "AI analysis failed: list index out of range"
  | item :: items, r :: rs =>
      (assignItems items rs).map (fun rest => (item, r) :: rest)

/-- `ChecklistAnalyzer.analyze_transcript` (`checklist_analyzer.py` lines
195-265), with the external LLM call abstracted into `parsed`: either the
parsed `items` array of the completion or a JSON parse failure.  Requires
exactly 10 active checklist items, then maps entry `idx` to item `idx`;
any missing entry fails the whole analysis. -/
def analyze_transcript (items : List ChecklistItemRef)
    (parsed : Except String (List LLMItemResult)) :
    Except String (List (ChecklistItemRef × LLMItemResult)) :=
  if items.length != 10 then
    Except.error "Expected 10 checklist items"
  else
    match parsed with
    | Except.error e => Except.error ("Failed to parse AI response as JSON: " ++ e)
    | Except.ok llmItems => assignItems items llmItems

/-- Fresh `SessionResponse` rows built from a successful analysis
(`transcription.py` lines 249-262): AI answer and reasoning, no user
override, score 10 for yes and 0 for no. -/
def responsesFromAnalysis (results : List (ChecklistItemRef × LLMItemResult)) :
    List SessionResponse :=
  results.map (fun p =>
    { itemId := p.1.id
      itemTitle := p.1.title
      aiAnswer := p.2.answer
      aiReasoning := p.2.reasoning
      userAnswer := none
      wasChanged := false
      changedAt := none
      score := if p.2.answer then 10 else 0 })

/-- `start_transcription` (`app/api/v1/endpoints/transcription.py` lines
21-83): 404 without an audio file, 409 Conflict when a transcript already
exists for the session, otherwise marks the session `analyzing` and
schedules the background processing task. -/
def start_transcription (st : Session) : Except ApiError Session :=
  match st.audioFile with
  | none => Except.error ApiError.notFound
  | some _ =>
      match st.transcript with
      | some _ => Except.error ApiError.conflict
      | none => Except.ok { st with status := SessionStatus.analyzing }

/-- Background task `process_transcription` (`transcription.py` lines
136-296), with the external speech-to-text and LLM calls abstracted into
`transcribed` and `parsed`.  On transcription failure the session is
marked `failed`; on success the transcript is committed, then analysis
runs: if it fails the session is marked `failed` with responses
untouched, otherwise the old responses are deleted, the fresh AI
responses inserted and the session moved to `pending_review`. -/
def process_transcription (st : Session) (transcribed : Except String Transcript)
    (parsed : Except String (List LLMItemResult))
    (items : List ChecklistItemRef) : Session :=
  match transcribed with
  | Except.error _ => { st with status := SessionStatus.failed }
  | Except.ok tr =>
      let st1 := { st with transcript := some tr }
      match analyze_transcript items parsed with
      | Except.error _ => { st1 with status := SessionStatus.failed }
      | Except.ok results =>
          { st1 with
              responses := responsesFromAnalysis results
              status := SessionStatus.pending_review }

/-- Log severities tracked by the embedding. -/
inductive LogLevel where
  | info
  | warning
  | error
deriving DecidableEq

/-- The WARNING message logged when the object-store put fails and intake
falls back to local storage (`uploads.py` line 181). -/
def s3FallbackWarning : String :=
  "S3 upload failed, falling back to local storage"

/-- Audio mime types accepted by `upload_audio_file`
(`uploads.py` lines 45-55). -/
def valid_audio_types : List String :=
  ["audio/webm", "audio/wav", "audio/mp3", "audio/mpeg", "audio/mp4",
   "audio/m4a", "audio/ogg", "audio/x-m4a", "audio/x-wav"]

deriving instance DecidableEq for Except

/-- External-world inputs of one `upload_audio_file` call: storage
configuration, the outcome of the object-store put, the location it would
return, the maximum accepted size, and the downstream speech-to-text and
LLM results consumed by the synchronous pipeline. -/
structure UploadEnv where
  s3Enabled : Bool
  s3PutOk : Bool
  s3Url : String
  maxSizeMB : Nat
  transcribed : Except String Transcript
  parsed : Except String (List LLMItemResult)
  items : List ChecklistItemRef
deriving DecidableEq

/-- Successful responses of `upload_audio_file`: either the echo of an
already-existing audio reference, or the record created by a full
upload-transcribe-analyze pass. -/
inductive UploadOutcome where
  | existingAudio (record : AudioFile)
  | processed (record : AudioFile)
deriving DecidableEq

/-- Full observable outcome of one `upload_audio_file` call: HTTP
response, final session state, emitted log records, and the paths written
to local storage. -/
structure UploadResult where
  response : Except ApiError UploadOutcome
  state : Session
  logs : List (LogLevel × String)
  localWrites : List String
deriving DecidableEq

/-- `upload_audio_file` (`app/api/v1/endpoints/uploads.py` lines 24-396).
Order of checks follows the source: mime validation (415), then the
duplicate-intake check — an existing audio reference is echoed back as a
success without any mutation or pipeline re-trigger — then empty-content
(500) and size (413) validation.  Storage: S3 when configured, falling
back to local storage with a WARNING log when the put fails, else local.
The audio record is committed with status `analyzing`, after which the
transcription and analysis pipeline runs synchronously; its failure marks
the session `failed` and surfaces a 500, its success replaces the
responses and moves the session to `pending_review`. -/
def upload_audio_file (st : Session) (contentType : Option String)
    (contentLen : Nat) (uniqueFilename : String) (env : UploadEnv) :
    UploadResult :=
  match contentType with
  | none =>
      { response := Except.error ApiError.unsupportedMediaType
        state := st
        logs := [(LogLevel.warning, "Invalid file type")]
        localWrites := [] }
  | some ct =>
      if ct ∉ valid_audio_types then
        { response := Except.error ApiError.unsupportedMediaType
          state := st
          logs := [(LogLevel.warning, "Invalid file type")]
          localWrites := [] }
      else
        match st.audioFile with
        | some existing =>
            { response := Except.ok (UploadOutcome.existingAudio existing)
              state := st
              logs := [(LogLevel.info, "Audio file already exists for session")]
              localWrites := [] }
        | none =>
            if contentLen = 0 then
              { response := Except.error ApiError.internalError
                state := st
                logs := [(LogLevel.error, "Failed to save file: Uploaded file is empty")]
                localWrites := [] }
            else if env.maxSizeMB * 1024 * 1024 < contentLen then
              { response := Except.error ApiError.payloadTooLarge
                state := st
                logs := []
                localWrites := [] }
            else
              let localPath := "uploads/" ++ uniqueFilename
              let stored : String × String × List (LogLevel × String) × List String :=
                if env.s3Enabled then
                  if env.s3PutOk then
                    ("s3", env.s3Url, [], [])
                  else
                    ("local", localPath, [(LogLevel.warning, s3FallbackWarning)], [localPath])
                else
                  ("local", localPath, [], [localPath])
              let record : AudioFile :=
                { filename := uniqueFilename
                  filePath := stored.2.1
                  storageType := stored.1
                  fileSize := contentLen
                  mimeType := ct }
              let st1 := { st with audioFile := some record, status := SessionStatus.analyzing }
              match env.transcribed with
              | Except.error _ =>
                  { response := Except.error ApiError.internalError
                    state := { st1 with status := SessionStatus.failed }
                    logs := stored.2.2.1
                    localWrites := stored.2.2.2 }
              | Except.ok tr =>
                  let st2 := { st1 with transcript := some tr }
                  match analyze_transcript env.items env.parsed with
                  | Except.error _ =>
                      { response := Except.error ApiError.internalError
                        state := { st2 with status := SessionStatus.failed }
                        logs := stored.2.2.1
                        localWrites := stored.2.2.2 }
                  | Except.ok results =>
                      { response := Except.ok (UploadOutcome.processed record)
                        state :=
                          { st2 with
                              responses := responsesFromAnalysis results
                              status := SessionStatus.pending_review }
                        logs := stored.2.2.1
                        localWrites := stored.2.2.2 }

/-- Parsed LLM completion for gap coaching (`coaching_service.py`,
expected JSON: per-gap paragraphs, a summary and one next-call focus). -/
structure GapLLMResponse where
  gapCoaching : List (String × String)
  summary : String
  nextCallFocus : String
deriving DecidableEq

/-- `CoachingService.fetch_gap_data` restricted to the response rows it
selects (`coaching_service.py` lines 60-68): the session's responses
with score 0. -/
def fetch_gap_data (st : Session) : List SessionResponse :=
  st.responses.filter (fun r => r.score == 0)

/-- The fixed congratulatory text returned for a perfect score
(`coaching_service.py` lines 150-156). -/
def perfectFeedbackText (score : Nat) : String :=
  "Excellent work! You achieved a perfect score of " ++ toString score ++
  "/100 on this call. All checklist items were successfully completed. " ++
  "Keep up the great work and continue applying these best practices in your future calls."

/-- Coaching output contract, extended with a count of external LLM
calls performed while producing it. -/
structure CoachingOutput where
  feedbackText : String
  strengths : List String
  improvementAreas : List (String × String)
  actionItems : List String
  llmCalls : Nat
deriving DecidableEq

/-- `CoachingService.generate_coaching_feedback` (`coaching_service.py`
lines 117-271) with the external LLM call abstracted into `llm`.  With no
gap rows it returns the fixed congratulatory message with empty strengths
and improvement areas and makes no LLM call; otherwise it performs one
LLM call and assembles the gap-based feedback from the completion. -/
def generate_coaching_feedback (st : Session) (score : Nat)
    (llm : GapLLMResponse) : CoachingOutput :=
  let gaps := fetch_gap_data st
  if gaps.isEmpty then
    { feedbackText := perfectFeedbackText score
      strengths := []
      improvementAreas := []
      actionItems := ["Continue applying these successful techniques in future calls"]
      llmCalls := 0 }
  else
    { feedbackText :=
        (llm.summary ++ "\n\n" ++
         String.join (llm.gapCoaching.map (fun p =>
           "**" ++ p.1 ++ ":**\n" ++ p.2 ++ "\n\n")) ++
         "**Next Call Focus:** " ++ llm.nextCallFocus).trim
      strengths := []
      improvementAreas := llm.gapCoaching
      actionItems := [llm.nextCallFocus]
      llmCalls := 1 }

/-- One human-override command: which item, the new boolean answer, and
the request time. -/
structure OverrideCmd where
  itemId : Nat
  newAnswer : Bool
  time : Nat
deriving DecidableEq

/-- Apply one override through `update_checklist_item`; a rejected
request (unknown item) leaves the state unchanged. -/
def applyOverride (st : Session) (c : OverrideCmd) : Session :=
  match update_checklist_item st c.itemId c.newAnswer c.time with
  | Except.ok (st2, _) => st2
  | Except.error _ => st

/-- One invocation of the scoring engine, preceded by the overrides the
user made since the previous invocation. -/
structure CalcInvocation where
  overrides : List OverrideCmd
  time : Nat
deriving DecidableEq

/-- Run the overrides of one invocation, then `calculate_session_score`;
a rejected calculation leaves the state as the overrides left it. -/
def calcStep (st : Session) (inv : CalcInvocation) : Session :=
  let st1 := inv.overrides.foldl applyOverride st
  match calculate_session_score st1 inv.time with
  | Except.ok (st2, _) => st2
  | Except.error _ => st1

/-- Run a whole sequence of scoring invocations. -/
def runCalcs (st : Session) : List CalcInvocation → Session
  | [] => st
  | inv :: rest => runCalcs (calcStep st inv) rest

/-- Check the delta chain of a score history: each row's `score_change`
equals its score minus the previous row's score, where `prev` carries the
score preceding the list (`none` before the first row, whose delta must
therefore be null). -/
def chainFrom : Option Rat → List ScoreHistory → Bool
  | _, [] => true
  | prev, e :: rest =>
      (e.scoreChange == prev.map (fun p => e.totalScore - p)) &&
        chainFrom (some e.totalScore) rest

/-- Score of the last history row, or the carried-in `prev` score when
the list is empty. -/
def lastScoreFrom (prev : Option Rat) : List ScoreHistory → Option Rat
  | [] => prev
  | e :: rest => lastScoreFrom (some e.totalScore) rest

/-- Shorthand for building a concrete checklist response row. -/
def mkResp (i : Nat) (ai : Bool) (user : Option Bool) (sc : Nat) : SessionResponse :=
  { itemId := i
    itemTitle := "Item " ++ toString i
    aiAnswer := ai
    aiReasoning := "reasoning"
    userAnswer := user
    wasChanged := false
    changedAt := none
    score := sc }

/-- Ten concrete responses: items 1-7 effectively yes, items 8-10 no. -/
def exTenResponses7 : List SessionResponse :=
  [mkResp 1 true none 10, mkResp 2 true none 10, mkResp 3 true none 10,
   mkResp 4 true none 10, mkResp 5 true none 10, mkResp 6 true none 10,
   mkResp 7 true none 10, mkResp 8 false none 0, mkResp 9 false none 0,
   mkResp 10 false none 0]

/-- Ten concrete responses, all effectively yes. -/
def exTenResponsesAllYes : List SessionResponse :=
  [mkResp 1 true none 10, mkResp 2 true none 10, mkResp 3 true none 10,
   mkResp 4 true none 10, mkResp 5 true none 10, mkResp 6 true none 10,
   mkResp 7 true none 10, mkResp 8 true none 10, mkResp 9 true none 10,
   mkResp 10 true none 10]

/-- Concrete session for the ten-verdict scoring scenario (7 yes / 3 no). -/
def exSessionA : Session :=
  { status := SessionStatus.pending_review
    audioFile := none
    transcript := none
    responses := exTenResponses7
    scoringResult := none
    scoreHistory := []
    submittedAt := none }

/-- Concrete session already in the terminal `completed` state. -/
def exSessionCompleted : Session :=
  { status := SessionStatus.completed
    audioFile := none
    transcript := none
    responses := exTenResponses7
    scoringResult := none
    scoreHistory := []
    submittedAt := some 1 }

/-- Concrete fresh session for the history-audit scenario: no history,
no snapshot, two responses. -/
def exSessionHistory : Session :=
  { status := SessionStatus.pending_review
    audioFile := none
    transcript := none
    responses := [mkResp 1 true none 10, mkResp 2 false none 0]
    scoringResult := none
    scoreHistory := []
    submittedAt := none }

/-- A concrete scoring sequence: one plain calculation, then an override
of item 1 to no followed by a recalculation. -/
def exScriptHistory : List CalcInvocation :=
  [{ overrides := [], time := 1 },
   { overrides := [{ itemId := 1, newAnswer := false, time := 2 }], time := 3 }]

/-- Concrete session for the override scenario. -/
def exSessionOverride : Session :=
  { status := SessionStatus.pending_review
    audioFile := none
    transcript := some { text := "call text", language := "en", wordsCount := 2 }
    responses := exTenResponses7
    scoringResult := none
    scoreHistory := []
    submittedAt := none }

/-- The ten static checklist items used by the analyzer fixtures. -/
def exItems10 : List ChecklistItemRef :=
  [{ id := 1, title := "Customer Fit" }, { id := 2, title := "Trigger Event" },
   { id := 3, title := "Priority" }, { id := 4, title := "Decision Influencers" },
   { id := 5, title := "Decision Process" }, { id := 6, title := "Budget" },
   { id := 7, title := "Timeline" }, { id := 8, title := "Competition" },
   { id := 9, title := "Next Steps" }, { id := 10, title := "Champion" }]

/-- An LLM response covering only 9 of the 10 criteria. -/
def exLLM9 : List LLMItemResult :=
  [{ answer := true, reasoning := "a" }, { answer := true, reasoning := "b" },
   { answer := false, reasoning := "c" }, { answer := true, reasoning := "d" },
   { answer := true, reasoning := "e" }, { answer := false, reasoning := "f" },
   { answer := true, reasoning := "g" }, { answer := true, reasoning := "h" },
   { answer := false, reasoning := "i" }]

/-- An LLM response covering all 10 criteria. -/
def exLLM10 : List LLMItemResult :=
  exLLM9 ++ [{ answer := true, reasoning := "j" }]

/-- A concrete transcript produced by the speech-to-text capability. -/
def exTranscript : Transcript :=
  { text := "hello world call", language := "en", wordsCount := 3 }

/-- Concrete session in `analyzing` while its background task runs. -/
def exSessionAnalyzing : Session :=
  { status := SessionStatus.analyzing
    audioFile := some { filename := "a.webm", filePath := "uploads/a.webm",
                        storageType := "local", fileSize := 4, mimeType := "audio/webm" }
    transcript := none
    responses := []
    scoringResult := none
    scoreHistory := []
    submittedAt := none }

/-- A concrete prior score-history row. -/
def exHist0 : ScoreHistory :=
  { totalScore := 70
    riskBand := RiskBand.yellow
    itemsValidated := 7
    itemsTotal := 10
    calculatedAt := 5
    scoreChange := none
    triggerEvent := "initial_calculation" }

/-- A concrete prior scoring snapshot. -/
def exSnap0 : ScoringResult :=
  { totalScore := 70
    riskBand := RiskBand.yellow
    topStrengths := ["Item 1", "Item 2", "Item 3"]
    topGaps := ["Item 8", "Item 9", "Item 10"]
    itemsValidated := 7
    itemsTotal := 10 }

/-- Concrete session in `pending_review` with one prior calculation,
ready for checklist submission. -/
def exSessionPending : Session :=
  { status := SessionStatus.pending_review
    audioFile := none
    transcript := some exTranscript
    responses := exTenResponses7
    scoringResult := some exSnap0
    scoreHistory := [exHist0]
    submittedAt := none }

/-- Concrete session whose ten verdicts are all effectively true. -/
def exSessionPerfect : Session :=
  { status := SessionStatus.pending_review
    audioFile := none
    transcript := some exTranscript
    responses := exTenResponsesAllYes
    scoringResult := none
    scoreHistory := []
    submittedAt := none }

/-- A concrete LLM coaching completion (unused on the perfect path). -/
def exGapLLM : GapLLMResponse :=
  { gapCoaching := [("Budget", "Ask about budget early.")]
    summary := "Focus on budget."
    nextCallFocus := "Budget" }

/-- Upload environment in which the object-store put fails but the
downstream pipeline succeeds. -/
def exEnvS3Down : UploadEnv :=
  { s3Enabled := true
    s3PutOk := false
    s3Url := "https://bucket.s3.amazonaws.com/audio/key.webm"
    maxSizeMB := 25
    transcribed := Except.ok exTranscript
    parsed := Except.ok exLLM10
    items := exItems10 }

/-- Fresh concrete session before audio intake. -/
def exSessionDraft : Session :=
  { status := SessionStatus.draft
    audioFile := none
    transcript := none
    responses := []
    scoringResult := none
    scoreHistory := []
    submittedAt := none }

/-- A concrete already-stored audio reference. -/
def exAudio : AudioFile :=
  { filename := "first.webm"
    filePath := "uploads/first.webm"
    storageType := "local"
    fileSize := 9
    mimeType := "audio/webm" }

/-- Concrete session that already has an audio reference. -/
def exSessionWithAudio : Session :=
  { status := SessionStatus.analyzing
    audioFile := some exAudio
    transcript := none
    responses := []
    scoringResult := none
    scoreHistory := []
    submittedAt := none }

/-- Healthy upload environment (put succeeds, pipeline succeeds). -/
def exEnvOk : UploadEnv :=
  { s3Enabled := true
    s3PutOk := true
    s3Url := "https://bucket.s3.amazonaws.com/audio/key.webm"
    maxSizeMB := 25
    transcribed := Except.ok exTranscript
    parsed := Except.ok exLLM10
    items := exItems10 }

/-- Concrete session that already has both an audio reference and a
transcript (a completed transcription run). -/
def exSessionTranscribed : Session :=
  { status := SessionStatus.pending_review
    audioFile := some exAudio
    transcript := some exTranscript
    responses := exTenResponses7
    scoringResult := none
    scoreHistory := []
    submittedAt := none }

/-- The score-history invariant maintained across scoring runs: the
stored history forms a correct delta chain starting from no previous
score, and the current snapshot's score (when present) equals the last
history row's score. -/
def HistInv (st : Session) : Prop :=
  chainFrom none st.scoreHistory = true ∧
  st.scoringResult.map (fun r => r.totalScore) = lastScoreFrom none st.scoreHistory

theorem isEmpty_false_of_ne_nil {rs : List SessionResponse} (h : rs ≠ []) :
    rs.isEmpty = false := by
  cases rs with
  | nil => exact absurd rfl h
  | cons a l => rfl

theorem calculate_eq_of_ne_nil (st : Session) (now : Nat)
    (hne : st.responses.isEmpty = false) :
    calculate_session_score st now =
      Except.ok
        ({ st with
            scoringResult := some (calcSnapshot st.responses)
            scoreHistory := st.scoreHistory ++ [calcHistoryEntry st.responses st.scoringResult now]
            status := SessionStatus.scoring },
         { totalScore := percentageScore st.responses
           riskBand := riskBandOf (percentageScore st.responses)
           validatedCount := countValidated st.responses
           totalItems := st.responses.length }) := by
  simp [calculate_session_score, hne]

theorem percentageScore_of_len_ten {rs : List SessionResponse}
    (h : rs.length = 10) :
    percentageScore rs = ((10 * countValidated rs : Nat) : Rat) := by
  simp only [percentageScore]
  rw [h]
  rw [if_pos (by norm_num)]
  push_cast
  rw [div_mul_cancel₀ _ (by norm_num : (100:Rat) ≠ 0)]

/-- C1: for a session with exactly 10 criterion verdicts,
`calculate_session_score` returns score `10 × (number of effectively
true verdicts)` and the risk band is a pure function of that score:
green when the score is at least 80, yellow when it is at least 60 and
below 80, and red below 60. -/
theorem calculate_score_of_ten_verdicts (st : Session) (now : Nat)
    (h : st.responses.length = 10) :
    ∃ st2 resp, calculate_session_score st now = Except.ok (st2, resp) ∧
      resp.totalScore = ((10 * countValidated st.responses : Nat) : Rat) ∧
      resp.riskBand =
        (if ((10 * countValidated st.responses : Nat) : Rat) ≥ 80 then RiskBand.green
         else if ((10 * countValidated st.responses : Nat) : Rat) ≥ 60 then RiskBand.yellow
         else RiskBand.red) := by
  have hne : st.responses.isEmpty = false := by
    apply isEmpty_false_of_ne_nil
    intro hnil
    rw [hnil] at h
    simp at h
  have hcalc := calculate_eq_of_ne_nil st now hne
  have hp := percentageScore_of_len_ten h
  refine ⟨_, _, hcalc, hp, ?_⟩
  show riskBandOf (percentageScore st.responses) = _
  rw [hp]
  rfl

/-- Witness for C1 at a concrete 7-yes/3-no session (score 70, yellow). -/
theorem calculate_score_of_ten_verdicts_witness :
    exSessionA.responses.length = 10 ∧
    (∃ st2 resp, calculate_session_score exSessionA 1 = Except.ok (st2, resp) ∧
      resp.totalScore = ((10 * countValidated exSessionA.responses : Nat) : Rat) ∧
      resp.riskBand =
        (if ((10 * countValidated exSessionA.responses : Nat) : Rat) ≥ 80 then RiskBand.green
         else if ((10 * countValidated exSessionA.responses : Nat) : Rat) ≥ 60 then RiskBand.yellow
         else RiskBand.red)) :=
  ⟨by decide, calculate_score_of_ten_verdicts exSessionA 1 (by decide)⟩

/-- C10: a successful `calculate_session_score` always sets the session
status to `scoring` as a side effect, whatever the prior status was (the
statement places no constraint on `st.status`, so it covers a session
already in the terminal `completed` state). -/
theorem calculate_sets_status_scoring (st : Session) (now : Nat)
    (h : st.responses ≠ []) :
    ∃ st2 resp, calculate_session_score st now = Except.ok (st2, resp) ∧
      st2.status = SessionStatus.scoring ∧
      st2.responses = st.responses := by
  have hcalc := calculate_eq_of_ne_nil st now (isEmpty_false_of_ne_nil h)
  exact ⟨_, _, hcalc, rfl, rfl⟩

/-- Witness for C10 at a concrete session already in `completed`: the
calculation still succeeds and moves it backward to `scoring`. -/
theorem calculate_sets_status_scoring_witness :
    exSessionCompleted.responses ≠ [] ∧
    exSessionCompleted.status = SessionStatus.completed ∧
    (∃ st2 resp, calculate_session_score exSessionCompleted 2 = Except.ok (st2, resp) ∧
      st2.status = SessionStatus.scoring ∧
      st2.responses = exSessionCompleted.responses) :=
  ⟨by decide, rfl, calculate_sets_status_scoring exSessionCompleted 2 (by decide)⟩

theorem chainFrom_append (h : List ScoreHistory) (a : Option Rat) (e : ScoreHistory) :
    chainFrom a (h ++ [e]) =
      (chainFrom a h &&
        (e.scoreChange == (lastScoreFrom a h).map (fun p => e.totalScore - p))) := by
  induction h generalizing a with
  | nil => simp [chainFrom, lastScoreFrom]
  | cons x xs ih => simp [chainFrom, lastScoreFrom, ih, Bool.and_assoc]

theorem lastScoreFrom_append (h : List ScoreHistory) (a : Option Rat) (e : ScoreHistory) :
    lastScoreFrom a (h ++ [e]) = some e.totalScore := by
  induction h generalizing a with
  | nil => rfl
  | cons x xs ih => simp [lastScoreFrom, ih]

theorem update_checklist_item_frame (st : Session) (itemId : Nat) (b : Bool)
    (now : Nat) (st2 : Session) (r2 : SessionResponse)
    (h : update_checklist_item st itemId b now = Except.ok (st2, r2)) :
    st2.scoreHistory = st.scoreHistory ∧
    st2.scoringResult = st.scoringResult ∧
    st2.responses.length = st.responses.length := by
  unfold update_checklist_item at h
  cases hf : st.responses.find? (fun r => r.itemId == itemId) with
  | none => rw [hf] at h; exact absurd h (by simp)
  | some r =>
      rw [hf] at h
      simp only [Except.ok.injEq, Prod.mk.injEq] at h
      obtain ⟨h1, _⟩ := h
      rw [← h1]
      exact ⟨rfl, rfl, by simp⟩

theorem applyOverride_frame (st : Session) (c : OverrideCmd) :
    (applyOverride st c).scoreHistory = st.scoreHistory ∧
    (applyOverride st c).scoringResult = st.scoringResult ∧
    (applyOverride st c).responses.length = st.responses.length := by
  unfold applyOverride
  cases hu : update_checklist_item st c.itemId c.newAnswer c.time with
  | error e => exact ⟨rfl, rfl, rfl⟩
  | ok p => exact update_checklist_item_frame st c.itemId c.newAnswer c.time p.1 p.2 (by rw [hu])

theorem foldl_overrides_frame (cs : List OverrideCmd) (st : Session) :
    (cs.foldl applyOverride st).scoreHistory = st.scoreHistory ∧
    (cs.foldl applyOverride st).scoringResult = st.scoringResult ∧
    (cs.foldl applyOverride st).responses.length = st.responses.length := by
  induction cs generalizing st with
  | nil => exact ⟨rfl, rfl, rfl⟩
  | cons c cs ih =>
      obtain ⟨h1, h2, h3⟩ := applyOverride_frame st c
      obtain ⟨g1, g2, g3⟩ := ih (applyOverride st c)
      exact ⟨by rw [List.foldl_cons, g1, h1], by rw [List.foldl_cons, g2, h2],
             by rw [List.foldl_cons, g3, h3]⟩

theorem ne_nil_of_length_eq {rs rs2 : List SessionResponse}
    (h : rs.length = rs2.length) (hne : rs2 ≠ []) : rs ≠ [] := by
  intro hnil
  rw [hnil] at h
  exact hne (List.eq_nil_of_length_eq_zero h.symm)

theorem calcStep_inv (st : Session) (inv : CalcInvocation)
    (h : HistInv st) (hne : st.responses ≠ []) :
    HistInv (calcStep st inv) ∧
    (calcStep st inv).scoreHistory.length = st.scoreHistory.length + 1 ∧
    (calcStep st inv).responses ≠ [] := by
  obtain ⟨f1, f2, f3⟩ := foldl_overrides_frame inv.overrides st
  have hne1 : (inv.overrides.foldl applyOverride st).responses ≠ [] :=
    ne_nil_of_length_eq f3 hne
  have hstep : calcStep st inv =
      { inv.overrides.foldl applyOverride st with
          scoringResult := some (calcSnapshot (inv.overrides.foldl applyOverride st).responses)
          scoreHistory := (inv.overrides.foldl applyOverride st).scoreHistory ++
            [calcHistoryEntry (inv.overrides.foldl applyOverride st).responses
              (inv.overrides.foldl applyOverride st).scoringResult inv.time]
          status := SessionStatus.scoring } := by
    simp only [calcStep]
    rw [calculate_eq_of_ne_nil _ _ (isEmpty_false_of_ne_nil hne1)]
  have e1 : (calcStep st inv).scoreHistory =
      (inv.overrides.foldl applyOverride st).scoreHistory ++
        [calcHistoryEntry (inv.overrides.foldl applyOverride st).responses
          (inv.overrides.foldl applyOverride st).scoringResult inv.time] := by
    rw [hstep]
  have e2 : (calcStep st inv).scoringResult =
      some (calcSnapshot (inv.overrides.foldl applyOverride st).responses) := by
    rw [hstep]
  have e3 : (calcStep st inv).responses =
      (inv.overrides.foldl applyOverride st).responses := by
    rw [hstep]
  obtain ⟨hchain, hsnap⟩ := h
  refine ⟨⟨?_, ?_⟩, ?_, ?_⟩
  · rw [e1, f1, chainFrom_append, hchain, Bool.true_and]
    simp only [calcHistoryEntry]
    rw [f2, ← hsnap, Option.map_map]
    simp only [beq_iff_eq]
    rfl
  · rw [e2, e1, lastScoreFrom_append]
    simp [calcSnapshot, calcHistoryEntry]
  · rw [e1, f1]
    simp
  · rw [e3]
    exact hne1

theorem runCalcs_inv (script : List CalcInvocation) :
    ∀ st : Session, HistInv st → st.responses ≠ [] →
    HistInv (runCalcs st script) ∧
    (runCalcs st script).scoreHistory.length = st.scoreHistory.length + script.length ∧
    (runCalcs st script).responses ≠ [] := by
  induction script with
  | nil =>
      intro st h hne
      exact ⟨h, rfl, hne⟩
  | cons inv rest ih =>
      intro st h hne
      obtain ⟨h1, hlen1, hne1⟩ := calcStep_inv st inv h hne
      obtain ⟨h2, hlen2, hne2⟩ := ih (calcStep st inv) h1 hne1
      refine ⟨h2, ?_, hne2⟩
      show (runCalcs (calcStep st inv) rest).scoreHistory.length = _
      rw [hlen2, hlen1]
      simp [Nat.add_assoc, Nat.add_comm 1 rest.length]

/-- C2: starting from a session with no score history and no snapshot
but a non-empty response set, any sequence of N scoring invocations
(each optionally preceded by human overrides) leaves exactly N history
rows, and the rows form a correct delta chain: the first row's delta is
null and every later row's delta equals its score minus the immediately
preceding row's score.  In particular the append is never skipped when
the score repeats. -/
theorem score_history_complete_audit (st : Session) (script : List CalcInvocation)
    (h0 : st.scoreHistory = []) (h1 : st.scoringResult = none)
    (h2 : st.responses ≠ []) :
    (runCalcs st script).scoreHistory.length = script.length ∧
    chainFrom none (runCalcs st script).scoreHistory = true := by
  have hinv : HistInv st := by
    constructor
    · rw [h0]; rfl
    · rw [h0, h1]; rfl
  obtain ⟨hI, hlen, _⟩ := runCalcs_inv script st hinv h2
  exact ⟨by rw [hlen, h0]; simp, hI.1⟩

/-- Witness for C2: a concrete two-invocation run (a plain calculation,
then an override of item 1 followed by a recalculation). -/
theorem score_history_complete_audit_witness :
    exSessionHistory.scoreHistory = [] ∧
    exSessionHistory.scoringResult = none ∧
    exSessionHistory.responses ≠ [] ∧
    ((runCalcs exSessionHistory exScriptHistory).scoreHistory.length = exScriptHistory.length ∧
      chainFrom none (runCalcs exSessionHistory exScriptHistory).scoreHistory = true) :=
  ⟨rfl, rfl, by decide,
   score_history_complete_audit exSessionHistory exScriptHistory rfl rfl (by decide)⟩

/-- C3: setting a human override makes the effective verdict equal the
override, immediately sets the per-item score to 10 or 0 accordingly,
leaves every AI verdict and the transcript untouched (no re-analysis),
and the next scoring run succeeds and scores the session from the
updated effective verdicts. -/
theorem override_precedence (st : Session) (itemId : Nat) (b : Bool)
    (now now2 : Nat) (r : SessionResponse)
    (hfind : st.responses.find? (fun x => x.itemId == itemId) = some r) :
    ∃ st2 r2, update_checklist_item st itemId b now = Except.ok (st2, r2) ∧
      r2.userAnswer = some b ∧
      finalAnswer r2 = b ∧
      r2.score = (if b then 10 else 0) ∧
      st2.responses.map (fun x => x.aiAnswer) = st.responses.map (fun x => x.aiAnswer) ∧
      st2.transcript = st.transcript ∧
      st2.responses.map (fun x => finalAnswer x) =
        st.responses.map (fun x => if x.itemId == itemId then b else finalAnswer x) ∧
      (∃ st3 resp, calculate_session_score st2 now2 = Except.ok (st3, resp) ∧
        resp.totalScore = percentageScore st2.responses ∧
        resp.validatedCount = countValidated st2.responses) := by
  have hupd : update_checklist_item st itemId b now =
      Except.ok
        ({ st with responses := st.responses.map (fun x =>
            if x.itemId == itemId then
              { x with
                  userAnswer := some b
                  wasChanged := b != x.aiAnswer
                  changedAt := if b != x.aiAnswer then some now else none
                  score := if b then 10 else 0 }
            else x) },
         { r with
             userAnswer := some b
             wasChanged := b != r.aiAnswer
             changedAt := if b != r.aiAnswer then some now else none
             score := if b then 10 else 0 }) := by
    simp only [update_checklist_item]
    rw [hfind]
  have hne2 : (st.responses.map (fun x =>
      if x.itemId == itemId then
        { x with
            userAnswer := some b
            wasChanged := b != x.aiAnswer
            changedAt := if b != x.aiAnswer then some now else none
            score := if b then 10 else 0 }
      else x)) ≠ [] := by
    have hmem := List.mem_of_find?_eq_some hfind
    intro hnil
    rw [List.map_eq_nil_iff] at hnil
    rw [hnil] at hmem
    exact absurd hmem (List.not_mem_nil r)
  refine ⟨_, _, hupd, rfl, rfl, rfl, ?_, rfl, ?_, ?_⟩
  · show (st.responses.map _).map _ = _
    rw [List.map_map]
    apply List.map_congr_left
    intro x _
    by_cases hcond : (x.itemId == itemId) = true
    · simp [Function.comp, hcond]
    · simp [Function.comp, hcond]
  · show (st.responses.map _).map _ = _
    rw [List.map_map]
    apply List.map_congr_left
    intro x _
    by_cases hcond : (x.itemId == itemId) = true
    · simp [Function.comp, hcond, finalAnswer]
    · simp [Function.comp, hcond]
  · have hcalc := calculate_eq_of_ne_nil
      ({ st with responses := st.responses.map (fun x =>
          if x.itemId == itemId then
            { x with
                userAnswer := some b
                wasChanged := b != x.aiAnswer
                changedAt := if b != x.aiAnswer then some now else none
                score := if b then 10 else 0 }
          else x) }) now2 (isEmpty_false_of_ne_nil hne2)
    exact ⟨_, _, hcalc, rfl, rfl⟩

/-- Witness for C3 at a concrete session: item 3 (AI yes) overridden to
no. -/
theorem override_precedence_witness :
    exSessionOverride.responses.find? (fun x => x.itemId == 3) =
      some (mkResp 3 true none 10) ∧
    (∃ st2 r2, update_checklist_item exSessionOverride 3 false 4 = Except.ok (st2, r2) ∧
      r2.userAnswer = some false ∧
      finalAnswer r2 = false ∧
      r2.score = (if false then 10 else 0) ∧
      st2.responses.map (fun x => x.aiAnswer) =
        exSessionOverride.responses.map (fun x => x.aiAnswer) ∧
      st2.transcript = exSessionOverride.transcript ∧
      st2.responses.map (fun x => finalAnswer x) =
        exSessionOverride.responses.map (fun x => if x.itemId == 3 then false else finalAnswer x) ∧
      (∃ st3 resp, calculate_session_score st2 5 = Except.ok (st3, resp) ∧
        resp.totalScore = percentageScore st2.responses ∧
        resp.validatedCount = countValidated st2.responses)) :=
  ⟨by decide, override_precedence exSessionOverride 3 false 4 5 (mkResp 3 true none 10) (by decide)⟩

theorem assignItems_short (items : List ChecklistItemRef) (rs : List LLMItemResult)
    (h : rs.length < items.length) :
    assignItems items rs = Except.error "AI analysis failed: list index out of range" := by
  induction items generalizing rs with
  | nil => simp at h
  | cons i is ih =>
      cases rs with
      | nil => rfl
      | cons r rs2 =>
          have h2 : rs2.length < is.length := by
            simp only [List.length_cons] at h
            omega
          simp [assignItems, ih rs2 h2, Except.map]

/-- C4: when the parsed analysis response covers only 9 of the 10
criteria, the whole analysis raises an error, and the background
processing task writes no criterion verdicts (the session's responses
are unchanged) and marks the session `failed`, never `pending_review`. -/
theorem analysis_parse_failure_no_partial_writes (items : List ChecklistItemRef)
    (llmItems : List LLMItemResult) (st : Session) (tr : Transcript)
    (h10 : items.length = 10) (h9 : llmItems.length = 9) :
    (∃ e, analyze_transcript items (Except.ok llmItems) = Except.error e) ∧
    (process_transcription st (Except.ok tr) (Except.ok llmItems) items).responses
      = st.responses ∧
    (process_transcription st (Except.ok tr) (Except.ok llmItems) items).status
      = SessionStatus.failed ∧
    (process_transcription st (Except.ok tr) (Except.ok llmItems) items).status
      ≠ SessionStatus.pending_review := by
  have herr : analyze_transcript items (Except.ok llmItems) =
      Except.error "AI analysis failed: list index out of range" := by
    unfold analyze_transcript
    rw [if_neg (by rw [h10]; simp)]
    exact assignItems_short items llmItems (by rw [h10, h9]; norm_num)
  refine ⟨⟨_, herr⟩, ?_, ?_, ?_⟩
  · simp [process_transcription, herr]
  · simp [process_transcription, herr]
  · simp [process_transcription, herr]

/-- Witness for C4 at concrete inputs: 10 items, a 9-entry response, a
session in `analyzing`. -/
theorem analysis_parse_failure_no_partial_writes_witness :
    exItems10.length = 10 ∧
    exLLM9.length = 9 ∧
    ((∃ e, analyze_transcript exItems10 (Except.ok exLLM9) = Except.error e) ∧
      (process_transcription exSessionAnalyzing (Except.ok exTranscript)
        (Except.ok exLLM9) exItems10).responses = exSessionAnalyzing.responses ∧
      (process_transcription exSessionAnalyzing (Except.ok exTranscript)
        (Except.ok exLLM9) exItems10).status = SessionStatus.failed ∧
      (process_transcription exSessionAnalyzing (Except.ok exTranscript)
        (Except.ok exLLM9) exItems10).status ≠ SessionStatus.pending_review) :=
  ⟨rfl, rfl,
   analysis_parse_failure_no_partial_writes exItems10 exLLM9 exSessionAnalyzing
     exTranscript rfl rfl⟩

/-- Counterexample for C5: at a concrete `pending_review` session holding
one prior score-history row, submitting the checklist succeeds and
completes the session, but the score history still holds exactly the one
old row afterwards — no Score History entry is appended by submission,
contrary to the claim. -/
theorem submit_no_history_append_cex :
    exSessionPending.scoreHistory.length = 1 ∧
    (submit_checklist exSessionPending 9).toOption.map
        (fun o => (o.state.status, o.state.scoreHistory)) =
      some (SessionStatus.completed, exSessionPending.scoreHistory) := by
  constructor
  · rfl
  · decide

theorem submit_eq_of_ne_nil (st : Session) (now : Nat)
    (hne : st.responses.isEmpty = false) :
    submit_checklist st now =
      Except.ok
        { state :=
            { st with
                scoringResult := some
                  (match st.scoringResult with
                   | some r =>
                       { r with
                           totalScore := ((10 * countValidated st.responses : Nat) : Rat)
                           riskBand :=
                             if 80 ≤ 10 * countValidated st.responses then RiskBand.green
                             else if 60 ≤ 10 * countValidated st.responses then RiskBand.yellow
                             else RiskBand.red
                           itemsValidated := countValidated st.responses
                           itemsTotal := st.responses.length }
                   | none =>
                       { totalScore := ((10 * countValidated st.responses : Nat) : Rat)
                         riskBand :=
                           if 80 ≤ 10 * countValidated st.responses then RiskBand.green
                           else if 60 ≤ 10 * countValidated st.responses then RiskBand.yellow
                           else RiskBand.red
                         topStrengths := []
                         topGaps := []
                         itemsValidated := countValidated st.responses
                         itemsTotal := st.responses.length })
                status := SessionStatus.completed
                submittedAt := some now }
          totalScore := 10 * countValidated st.responses
          itemsYes := countValidated st.responses
          itemsNo := st.responses.length - countValidated st.responses
          coachingScheduled := true } := by
  simp only [submit_checklist, hne, Bool.false_eq_true, if_false]

/-- C5 (amended): for a session in `pending_review` with responses,
checklist submission transitions the session to `completed` with a
submission timestamp, recomputes the Score Snapshot (score, band and
counts over the effective verdicts) and schedules Coaching Synthesis as
a background step — but, contrary to the original claim, it appends no
Score History entry: the history is left exactly as it was. -/
theorem submit_transitions_completed (st : Session) (now : Nat)
    (_hstatus : st.status = SessionStatus.pending_review)
    (hne : st.responses ≠ []) :
    ∃ out, submit_checklist st now = Except.ok out ∧
      out.state.status = SessionStatus.completed ∧
      out.state.submittedAt = some now ∧
      out.coachingScheduled = true ∧
      out.state.scoreHistory = st.scoreHistory ∧
      out.totalScore = 10 * countValidated st.responses ∧
      (∃ r2, out.state.scoringResult = some r2 ∧
        r2.totalScore = ((10 * countValidated st.responses : Nat) : Rat) ∧
        r2.riskBand =
          (if 80 ≤ 10 * countValidated st.responses then RiskBand.green
           else if 60 ≤ 10 * countValidated st.responses then RiskBand.yellow
           else RiskBand.red) ∧
        r2.itemsValidated = countValidated st.responses ∧
        r2.itemsTotal = st.responses.length) := by
  have hsub := submit_eq_of_ne_nil st now (isEmpty_false_of_ne_nil hne)
  refine ⟨_, hsub, rfl, rfl, rfl, rfl, rfl, ?_⟩
  cases st.scoringResult with
  | none => exact ⟨_, rfl, rfl, rfl, rfl, rfl⟩
  | some r => exact ⟨_, rfl, rfl, rfl, rfl, rfl⟩

/-- Witness for C5 (amended) at the concrete `pending_review` session. -/
theorem submit_transitions_completed_witness :
    exSessionPending.status = SessionStatus.pending_review ∧
    exSessionPending.responses ≠ [] ∧
    (∃ out, submit_checklist exSessionPending 9 = Except.ok out ∧
      out.state.status = SessionStatus.completed ∧
      out.state.submittedAt = some 9 ∧
      out.coachingScheduled = true ∧
      out.state.scoreHistory = exSessionPending.scoreHistory ∧
      out.totalScore = 10 * countValidated exSessionPending.responses ∧
      (∃ r2, out.state.scoringResult = some r2 ∧
        r2.totalScore = ((10 * countValidated exSessionPending.responses : Nat) : Rat) ∧
        r2.riskBand =
          (if 80 ≤ 10 * countValidated exSessionPending.responses then RiskBand.green
           else if 60 ≤ 10 * countValidated exSessionPending.responses then RiskBand.yellow
           else RiskBand.red) ∧
        r2.itemsValidated = countValidated exSessionPending.responses ∧
        r2.itemsTotal = exSessionPending.responses.length)) :=
  ⟨rfl, by decide, submit_transitions_completed exSessionPending 9 rfl (by decide)⟩

/-- C6: when every one of a session's 10 criterion verdicts is
effectively true (and the per-item scores are in sync with the effective
verdicts, as every write path maintains), the coaching synthesizer
returns the fixed congratulatory message with empty strengths and
improvement-area lists and performs zero external LLM calls. -/
theorem perfect_score_no_llm (st : Session) (score : Nat) (llm : GapLLMResponse)
    (_hlen : st.responses.length = 10)
    (hall : ∀ r ∈ st.responses, finalAnswer r = true)
    (hsync : ∀ r ∈ st.responses, r.score = (if finalAnswer r then 10 else 0)) :
    generate_coaching_feedback st score llm =
      { feedbackText := perfectFeedbackText score
        strengths := []
        improvementAreas := []
        actionItems := ["Continue applying these successful techniques in future calls"]
        llmCalls := 0 } := by
  have hgaps : fetch_gap_data st = [] := by
    unfold fetch_gap_data
    rw [List.filter_eq_nil_iff]
    intro r hr
    have h1 := hall r hr
    have h2 := hsync r hr
    rw [h1] at h2
    simp [h2]
  simp [generate_coaching_feedback, hgaps]

/-- Witness for C6 at a concrete all-yes session. -/
theorem perfect_score_no_llm_witness :
    exSessionPerfect.responses.length = 10 ∧
    (∀ r ∈ exSessionPerfect.responses, finalAnswer r = true) ∧
    (∀ r ∈ exSessionPerfect.responses, r.score = (if finalAnswer r then 10 else 0)) ∧
    generate_coaching_feedback exSessionPerfect 100 exGapLLM =
      { feedbackText := perfectFeedbackText 100
        strengths := []
        improvementAreas := []
        actionItems := ["Continue applying these successful techniques in future calls"]
        llmCalls := 0 } :=
  ⟨rfl, by decide, by decide,
   perfect_score_no_llm exSessionPerfect 100 exGapLLM rfl (by decide) (by decide)⟩

/-- C7: when object storage is configured but its put fails during audio
intake, intake falls back to local storage: the created audio reference
has `storage_type = "local"`, the file is written to local storage, the
fallback is logged at WARNING, and (with the downstream pipeline
succeeding) the intake call still returns success. -/
theorem s3_fallback_local_success (st : Session) (ct : String) (contentLen : Nat)
    (fn : String) (env : UploadEnv) (tr : Transcript)
    (results : List (ChecklistItemRef × LLMItemResult))
    (hmime : ct ∈ valid_audio_types) (hnoaudio : st.audioFile = none)
    (hpos : 0 < contentLen) (hsize : contentLen ≤ env.maxSizeMB * 1024 * 1024)
    (hs3 : env.s3Enabled = true) (hput : env.s3PutOk = false)
    (htr : env.transcribed = Except.ok tr)
    (han : analyze_transcript env.items env.parsed = Except.ok results) :
    ∃ rec : AudioFile,
      (upload_audio_file st (some ct) contentLen fn env).response =
        Except.ok (UploadOutcome.processed rec) ∧
      rec.storageType = "local" ∧
      rec.filePath = "uploads/" ++ fn ∧
      ("uploads/" ++ fn) ∈ (upload_audio_file st (some ct) contentLen fn env).localWrites ∧
      (LogLevel.warning, s3FallbackWarning) ∈ (upload_audio_file st (some ct) contentLen fn env).logs ∧
      (upload_audio_file st (some ct) contentLen fn env).state.audioFile = some rec := by
  have h0 : ¬(contentLen = 0) := Nat.pos_iff_ne_zero.mp hpos
  have h1 : ¬(env.maxSizeMB * 1024 * 1024 < contentLen) := not_lt.mpr hsize
  refine ⟨{ filename := fn
            filePath := "uploads/" ++ fn
            storageType := "local"
            fileSize := contentLen
            mimeType := ct }, ?_, rfl, rfl, ?_, ?_, ?_⟩ <;>
    simp [upload_audio_file, hmime, hnoaudio, h0, h1, hs3, hput, htr, han]

/-- Witness for C7: object store down, 5-byte webm upload into a fresh
session; the pipeline succeeds from local storage. -/
theorem s3_fallback_local_success_witness :
    ("audio/webm" ∈ valid_audio_types) ∧
    exSessionDraft.audioFile = none ∧
    0 < 5 ∧
    5 ≤ exEnvS3Down.maxSizeMB * 1024 * 1024 ∧
    exEnvS3Down.s3Enabled = true ∧
    exEnvS3Down.s3PutOk = false ∧
    exEnvS3Down.transcribed = Except.ok exTranscript ∧
    analyze_transcript exEnvS3Down.items exEnvS3Down.parsed =
      Except.ok (exItems10.zip exLLM10) ∧
    (∃ rec : AudioFile,
      (upload_audio_file exSessionDraft (some "audio/webm") 5 "c7.webm" exEnvS3Down).response =
        Except.ok (UploadOutcome.processed rec) ∧
      rec.storageType = "local" ∧
      rec.filePath = "uploads/" ++ "c7.webm" ∧
      ("uploads/" ++ "c7.webm") ∈
        (upload_audio_file exSessionDraft (some "audio/webm") 5 "c7.webm" exEnvS3Down).localWrites ∧
      (LogLevel.warning, s3FallbackWarning) ∈
        (upload_audio_file exSessionDraft (some "audio/webm") 5 "c7.webm" exEnvS3Down).logs ∧
      (upload_audio_file exSessionDraft (some "audio/webm") 5 "c7.webm" exEnvS3Down).state.audioFile =
        some rec) :=
  ⟨by decide, rfl, by decide, by decide, rfl, rfl, rfl, by decide,
   s3_fallback_local_success exSessionDraft "audio/webm" 5 "c7.webm" exEnvS3Down
     exTranscript (exItems10.zip exLLM10)
     (by decide) rfl (by decide) (by decide) rfl rfl rfl (by decide)⟩

/-- Counterexample for C8: at a concrete session that already has a
transcript, re-running transcription is rejected with a Conflict error —
it does not delete the prior transcript and criterion verdicts and
produce new ones, contrary to the claim. -/
theorem retranscribe_conflict_cex :
    exSessionTranscribed.transcript = some exTranscript ∧
    exSessionTranscribed.responses.length = 10 ∧
    start_transcription exSessionTranscribed = Except.error ApiError.conflict :=
  ⟨rfl, rfl, rfl⟩

/-- C8 (amended): re-running transcription on a session that already has
a transcript is rejected with a Conflict error and mutates nothing — the
prior transcript and criterion verdicts are kept untouched, so no read
can ever observe more than 10 verdicts or a mix of old and new data. -/
theorem retranscribe_rejected_conflict (st : Session) (a : AudioFile) (t : Transcript)
    (ha : st.audioFile = some a) (ht : st.transcript = some t) :
    start_transcription st = Except.error ApiError.conflict := by
  simp [start_transcription, ha, ht]

/-- Witness for C8 (amended) at the concrete transcribed session. -/
theorem retranscribe_rejected_conflict_witness :
    exSessionTranscribed.audioFile = some exAudio ∧
    exSessionTranscribed.transcript = some exTranscript ∧
    start_transcription exSessionTranscribed = Except.error ApiError.conflict :=
  ⟨rfl, rfl, retranscribe_rejected_conflict exSessionTranscribed exAudio exTranscript rfl rfl⟩

/-- Counterexample for C9: at a concrete session that already has an
audio reference, a second intake is not rejected with Conflict — it
returns a success response echoing the existing reference and leaves the
session state untouched. -/
theorem duplicate_upload_cex :
    exSessionWithAudio.audioFile = some exAudio ∧
    (upload_audio_file exSessionWithAudio (some "audio/webm") 5 "g.webm" exEnvOk).response =
      Except.ok (UploadOutcome.existingAudio exAudio) ∧
    (upload_audio_file exSessionWithAudio (some "audio/webm") 5 "g.webm" exEnvOk).response ≠
      Except.error ApiError.conflict ∧
    (upload_audio_file exSessionWithAudio (some "audio/webm") 5 "g.webm" exEnvOk).state =
      exSessionWithAudio := by
  refine ⟨rfl, ?_, ?_, ?_⟩ <;> decide

/-- C9 (amended): a second audio intake for a session that already has
an audio reference is answered with a success response that echoes the
existing reference unchanged; the session state is not mutated, nothing
is written to storage, and the downstream pipeline is not re-triggered.
It is not rejected with a Conflict error, and there is no reprocessing
option. -/
theorem duplicate_upload_returns_existing (st : Session) (a : AudioFile) (ct : String)
    (len : Nat) (fn : String) (env : UploadEnv)
    (hmime : ct ∈ valid_audio_types) (ha : st.audioFile = some a) :
    (upload_audio_file st (some ct) len fn env).response =
      Except.ok (UploadOutcome.existingAudio a) ∧
    (upload_audio_file st (some ct) len fn env).state = st ∧
    (upload_audio_file st (some ct) len fn env).localWrites = [] := by
  refine ⟨?_, ?_, ?_⟩ <;> simp [upload_audio_file, hmime, ha]

/-- Witness for C9 (amended) at the concrete session with an existing
audio reference. -/
theorem duplicate_upload_returns_existing_witness :
    ("audio/webm" ∈ valid_audio_types) ∧
    exSessionWithAudio.audioFile = some exAudio ∧
    ((upload_audio_file exSessionWithAudio (some "audio/webm") 7 "h.webm" exEnvOk).response =
      Except.ok (UploadOutcome.existingAudio exAudio) ∧
    (upload_audio_file exSessionWithAudio (some "audio/webm") 7 "h.webm" exEnvOk).state =
      exSessionWithAudio ∧
    (upload_audio_file exSessionWithAudio (some "audio/webm") 7 "h.webm" exEnvOk).localWrites = []) :=
  ⟨by decide, rfl,
   duplicate_upload_returns_existing exSessionWithAudio exAudio "audio/webm" 7 "h.webm"
     exEnvOk (by decide) rfl⟩
